import Mathlib

/-!
Shallow embedding of the analysis pipeline of the Rust-universe repository
(scripts/find_adam.py, scripts/plot_landscape.py, plotter_landscape.py,
scripts/plot_interactive.py, plotter.py): ingestion, generation filtering,
elite selection, genome reconstruction and the error behaviour of the
scripts. Numeric CSV fields (IEEE doubles in the source) are modelled as
rationals: the analysis layer only compares and copies these values, it
performs no rounding arithmetic on them.
-/

/-- One row of landscape_data.csv as the analysis scripts consume it. -/
structure SimulationRecord where
  fitness : ℚ
  winning_gen : ℤ
  mass_up_quark : ℚ
  mass_down_quark : ℚ
  mass_strange_quark : ℚ
  mass_charm_quark : ℚ
  mass_bottom_quark : ℚ
  mass_top_quark : ℚ
  deriving Repr, DecidableEq

/-- The scan performed by idxmax on the fitness column: the current best row
is replaced only when a later row has strictly greater fitness, so the first
occurrence of the maximum is kept (pandas idxmax semantics). -/
def idxmaxGo (best : SimulationRecord) : List SimulationRecord → SimulationRecord
  | [] => best
  | r :: rs => if best.fitness < r.fitness then idxmaxGo r rs else idxmaxGo best rs

/-- Best-record selection, find_adam.py line 25: adam is the row of df at the
index returned by idxmax on the fitness column. idxmax on an empty series
raises, hence Option. -/
def adam : List SimulationRecord → Option SimulationRecord
  | [] => none
  | r :: rs => some (idxmaxGo r rs)

/-- The generation filter: keep the rows whose winning_gen tag equals the
target g, in original order (plot_landscape.py line 15, plotter_landscape.py
line 14, both with g = 1 in the source). -/
def winningGenFilter (df : List SimulationRecord) (g : ℤ) : List SimulationRecord :=
  df.filter (fun r => r.winning_gen == g)

/-- The concrete filter of the landscape scripts: winning_gen equal to 1. -/
def df_gen1 (df : List SimulationRecord) : List SimulationRecord :=
  winningGenFilter df 1

/-- Descending-fitness comparison used by the sort on the fitness column with
ascending set to False. -/
def fitnessGe (a b : SimulationRecord) : Prop :=
  b.fitness ≤ a.fitness

/-- Strictly-descending fitness comparison (the relation named by the claim
that the elite subset is sorted strictly descending). -/
def fitnessGt (a b : SimulationRecord) : Prop :=
  b.fitness < a.fitness

instance : DecidableRel fitnessGe :=
  fun a b => inferInstanceAs (Decidable (b.fitness ≤ a.fitness))

instance : DecidableRel fitnessGt :=
  fun a b => inferInstanceAs (Decidable (b.fitness < a.fitness))

instance : IsTotal SimulationRecord fitnessGe :=
  ⟨fun a b => le_total b.fitness a.fitness⟩

instance : IsTrans SimulationRecord fitnessGe :=
  ⟨fun _ _ _ hab hbc => le_trans hbc hab⟩

/-- The sort of the table by descending fitness (plot_landscape.py line 22),
modelled as a comparison sort with the descending-fitness relation. -/
def sort_values_fitness_desc (df : List SimulationRecord) : List SimulationRecord :=
  List.insertionSort fitnessGe df

/-- The elite subset: sort by descending fitness, then take the first 500
rows (plot_landscape.py line 22), over an arbitrary input table. -/
def df_elite (df : List SimulationRecord) : List SimulationRecord :=
  (sort_values_fitness_desc df).take 500

/-- The head of the elite subset (plot_landscape.py line 23); position 0 of
an empty frame raises, hence Option. -/
def best_universe (df : List SimulationRecord) : Option SimulationRecord :=
  (df_elite df).head?

/-- The CosmicLaw parameter vector written to adam_genome.json
(find_adam.py lines 33 to 50). -/
structure CosmicLaw where
  G : ℚ
  e : ℚ
  alpha_s : ℚ
  alpha_w : ℚ
  mass_electron : ℚ
  mass_muon : ℚ
  mass_tauon : ℚ
  mass_up_quark : ℚ
  mass_down_quark : ℚ
  mass_strange_quark : ℚ
  mass_charm_quark : ℚ
  mass_bottom_quark : ℚ
  mass_top_quark : ℚ
  deriving Repr, DecidableEq

/-- The adam_genome dictionary of find_adam.py lines 33 to 50: fixed literal
defaults for the non-evolved constants, and the selected record for the six
quark masses. -/
def adam_genome (adam : SimulationRecord) : CosmicLaw where
  G := 6.67430e-11
  e := 1.60217663e-19
  alpha_s := 1.0
  alpha_w := 1.0e-6
  mass_electron := 9.10938356e-31
  mass_muon := 1.883531594e-28
  mass_tauon := 3.16754e-27
  mass_up_quark := adam.mass_up_quark
  mass_down_quark := adam.mass_down_quark
  mass_strange_quark := adam.mass_strange_quark
  mass_charm_quark := adam.mass_charm_quark
  mass_bottom_quark := adam.mass_bottom_quark
  mass_top_quark := adam.mass_top_quark

/-- The fatal conditions of the landscape pipeline. -/
inductive PipelineError where
  | fileNotFound (path : String)
  | emptyResult (winning_gen : ℤ)
  | indexError
  deriving Repr, DecidableEq

/-- The data the landscape chart consumes when the pipeline succeeds
(plot_landscape.py lines 22 to 24 plus the filtered table). -/
structure ChartData where
  gen1 : List SimulationRecord
  elite : List SimulationRecord
  best : SimulationRecord
  max_fitness : ℚ
  deriving Repr, DecidableEq

/-- Control flow of plot_landscape.py lines 9 to 24: read the CSV, filter on
winning_gen equal to 1, stop on an empty filter result, otherwise compute the
elite subset and the best universe. The input is None when the CSV file does
not resolve. -/
def plot_landscape_pipeline (file : Option (List SimulationRecord)) :
    Except PipelineError ChartData :=
  match file with
  | none => Except.error (PipelineError.fileNotFound "landscape_data.csv")
  | some df =>
      let g1 := df_gen1 df
      if g1.isEmpty then Except.error (PipelineError.emptyResult 1)
      else
        match best_universe g1 with
        | none => Except.error PipelineError.indexError
        | some b => Except.ok ⟨g1, df_elite g1, b, b.fitness⟩

/-- Observable outcome of one script run: the process exit status, the
printed diagnostics, and the chart data when one is produced. -/
structure RunResult where
  exitCode : ℕ
  messages : List String
  chart : Option ChartData
  deriving Repr, DecidableEq

/-- The run of plot_landscape.py as a process: on a missing file or an empty
filter result the script prints its diagnostic and calls the builtin
function named exit with no argument, which terminates with status 0. -/
def plot_landscape_run (file : Option (List SimulationRecord)) : RunResult :=
  match plot_landscape_pipeline file with
  | Except.error (PipelineError.fileNotFound p) =>
      ⟨0, ["Error: \x27" ++ p ++ "\x27 not found. Run the Rust simulation first."], none⟩
  | Except.error (PipelineError.emptyResult g) =>
      ⟨0, ["No viable universes found for Generation " ++ toString g ++ " in the data."], none⟩
  | Except.error PipelineError.indexError => ⟨1, [], none⟩
  | Except.ok cd => ⟨0, [], some cd⟩

/-- Observable outcome of a find_adam.py run: exit status, printed
diagnostics and the genome artifact written to adam_genome.json. -/
structure AdamRunResult where
  exitCode : ℕ
  messages : List String
  artifact : Option CosmicLaw
  deriving Repr, DecidableEq

/-- The run of find_adam.py as a process (lines 7 to 56): on a missing CSV it
prints two diagnostics, the first naming the resolved path, and calls the
builtin function named exit with no argument (status 0); on an empty table
idxmax raises an uncaught ValueError (status 1); otherwise it selects adam,
reconstructs the genome and writes the artifact. -/
def find_adam_run (csv_path : String) (file : Option (List SimulationRecord)) :
    AdamRunResult :=
  match file with
  | none =>
      ⟨0, ["Error: No se pudo encontrar \x27" ++ csv_path ++ "\x27.",
           "Asegúrate de haber ejecutado el modo \x27map\x27 primero."], none⟩
  | some df =>
      match adam df with
      | none => ⟨1, ["ValueError: attempt to get argmax of an empty sequence"], none⟩
      | some a =>
          ⟨0, ["--- Adán Encontrado ---",
               "Genoma de Adán guardado en \x27adam_genome.json\x27"],
           some (adam_genome a)⟩

/-- One CSV cell as pandas read_csv types it: numeric, or non-numeric text. -/
inductive Cell where
  | num (q : ℚ)
  | text (s : String)
  deriving Repr, DecidableEq

/-- Whether a cell holds non-numeric text. -/
def Cell.isText : Cell → Bool
  | .num _ => false
  | .text _ => true

/-- A raw CSV file: a header naming the columns and the data rows. -/
structure RawTable where
  header : List String
  rows : List (List Cell)
  deriving Repr, DecidableEq

/-- Ingestion failures of read_csv. -/
inductive IngestError where
  | fileNotFound (path : String)
  | parseError (value : String)
  deriving Repr, DecidableEq

/-- read_csv with no dtype argument (find_adam.py line 15): loads any
well-formed table whatever the cell contents; text in a numeric column is
silently kept as object dtype. -/
def read_csv (path : String) (file : Option RawTable) : Except IngestError RawTable :=
  match file with
  | none => Except.error (IngestError.fileNotFound path)
  | some t => Except.ok t

/-- First non-numeric text value of a row, if any. -/
def rowTextCell (row : List Cell) : Option String :=
  row.findSome? fun c => match c with
    | Cell.text s => some s
    | Cell.num _ => none

/-- First non-numeric text value of a table, row-major, if any. -/
def firstTextCell (t : RawTable) : Option String :=
  t.rows.findSome? rowTextCell

/-- Whether some cell of the table holds non-numeric text. -/
def hasNonNumeric (t : RawTable) : Bool :=
  t.rows.any (fun row => row.any Cell.isText)

/-- read_csv with dtype float64 (plot_landscape.py line 10,
plot_interactive.py line 9): any non-numeric cell makes the conversion raise
a ValueError naming the offending value. -/
def read_csv_float64 (path : String) (file : Option RawTable) :
    Except IngestError RawTable :=
  match file with
  | none => Except.error (IngestError.fileNotFound path)
  | some t =>
      match firstTextCell t with
      | some s => Except.error (IngestError.parseError s)
      | none => Except.ok t

/-- Column access df[c]: a KeyError naming the column when it is absent from
the header; this is the first point where a missing column surfaces. -/
def getColumn (t : RawTable) (c : String) : Except String (List Cell) :=
  match t.header.findIdx? (fun h => h == c) with
  | none => Except.error c
  | some i => Except.ok (t.rows.filterMap (fun row => row.get? i))

/-- Filesystem paths as component lists; resolving a relative path against
the working directory appends its components (os.path.abspath on a relative
path). -/
def abspath (cwd p : List String) : List String :=
  cwd ++ p

/-- Drop the last path component (os.path.dirname). -/
def dirname (p : List String) : List String :=
  p.dropLast

/-- find_adam.py lines 10 to 13: the CSV path is built from the directory of
the script file itself, then the parent marker, then the file name. -/
def find_adam_csv_path (cwd script_file : List String) : List String :=
  dirname (abspath cwd script_file) ++ [".."] ++ ["landscape_data.csv"]

/-- plot_landscape.py line 10 (same in plotter_landscape.py and
plot_interactive.py): the CSV name alone, resolved against the working
directory of the caller. -/
def plot_landscape_csv_path (cwd : List String) : List String :=
  abspath cwd ["landscape_data.csv"]

/-- plotter.py line 7: the evolution log name alone, resolved against the
working directory of the caller. -/
def plotter_csv_path (cwd : List String) : List String :=
  abspath cwd ["evolution_log_final.csv"]

/-- Concrete record: fitness 5, generation 1. -/
def recA : SimulationRecord :=
  ⟨5, 1, 1, 2, 3, 4, 5, 6⟩

/-- Concrete record: fitness 5 as well (an exact fitness tie with recA),
generation 1, different masses. -/
def recB : SimulationRecord :=
  ⟨5, 1, 7, 8, 9, 10, 11, 12⟩

/-- Concrete record: fitness 7, the unique maximum of tables built from
recA, recB and recC. -/
def recC : SimulationRecord :=
  ⟨7, 1, 13, 14, 15, 16, 17, 18⟩

/-- Concrete record tagged winning_gen 2: filtered out by df_gen1. -/
def recGen2 : SimulationRecord :=
  ⟨1, 2, 0, 0, 0, 0, 0, 0⟩

/-- A raw table whose fitness column holds non-numeric text. -/
def textFitnessTable : RawTable :=
  ⟨["fitness", "winning_gen"], [[Cell.text "abc", Cell.num 1]]⟩

/-- A raw table missing the fitness column entirely. -/
def missingFitnessTable : RawTable :=
  ⟨["mass_up_quark"], [[Cell.num 2]]⟩

/-- A raw table missing the fitness column and holding non-numeric text. -/
def noSchemaTable : RawTable :=
  ⟨["mass_up_quark"], [[Cell.text "abc"]]⟩

/-- The scan of idxmaxGo returns the first row attaining the maximum
fitness: the table splits around the returned row, every row is bounded by
it, and every row strictly before it has strictly smaller fitness. -/
theorem idxmaxGo_decomp (rs : List SimulationRecord) :
    ∀ best : SimulationRecord, ∃ l₁ x l₂,
      best :: rs = l₁ ++ x :: l₂ ∧ idxmaxGo best rs = x ∧
      (∀ y ∈ best :: rs, y.fitness ≤ x.fitness) ∧
      (∀ y ∈ l₁, y.fitness < x.fitness) := by
  induction rs with
  | nil =>
    intro best
    refine ⟨[], best, [], rfl, rfl, ?_, by simp⟩
    intro y hy
    simp only [List.mem_singleton] at hy
    simp [hy]
  | cons r rs ih =>
    intro best
    by_cases h : best.fitness < r.fitness
    · obtain ⟨l₁, x, l₂, hdec, hval, hmax, hfirst⟩ := ih r
      refine ⟨best :: l₁, x, l₂, by rw [List.cons_append, ← hdec], ?_, ?_, ?_⟩
      · simp [idxmaxGo, if_pos h, hval]
      · intro y hy
        rcases List.mem_cons.mp hy with hy | hy
        · subst hy
          exact le_of_lt (lt_of_lt_of_le h (hmax r (List.mem_cons_self r rs)))
        · exact hmax y hy
      · intro y hy
        rcases List.mem_cons.mp hy with hy | hy
        · subst hy
          exact lt_of_lt_of_le h (hmax r (List.mem_cons_self r rs))
        · exact hfirst y hy
    · obtain ⟨l₁, x, l₂, hdec, hval, hmax, hfirst⟩ := ih best
      have hrle : r.fitness ≤ best.fitness := le_of_not_lt h
      have hbx : best.fitness ≤ x.fitness := hmax best (List.mem_cons_self best rs)
      cases l₁ with
      | nil =>
        simp only [List.nil_append] at hdec
        injection hdec with hb hl
        refine ⟨[], x, r :: l₂, by rw [List.nil_append, ← hb, ← hl], ?_, ?_, by simp⟩
        · simp [idxmaxGo, if_neg h, hval]
        · intro y hy
          rcases List.mem_cons.mp hy with hy | hy
          · subst hy
            exact hbx
          rcases List.mem_cons.mp hy with hy | hy
          · subst hy
            exact le_trans hrle hbx
          · exact hmax y (List.mem_cons_of_mem best hy)
      | cons b l₁ =>
        rw [List.cons_append] at hdec
        injection hdec with hb hl
        refine ⟨best :: r :: l₁, x, l₂, ?_, ?_, ?_, ?_⟩
        · rw [List.cons_append, List.cons_append, ← hl]
        · simp [idxmaxGo, if_neg h, hval]
        · intro y hy
          rcases List.mem_cons.mp hy with hy | hy
          · subst hy
            exact hbx
          rcases List.mem_cons.mp hy with hy | hy
          · subst hy
            exact le_trans hrle hbx
          · exact hmax y (by rw [hl] at hy ⊢; exact List.mem_cons_of_mem best hy)
        · have hbltx : best.fitness < x.fitness := hb ▸ hfirst b (List.mem_cons_self b l₁)
          intro y hy
          rcases List.mem_cons.mp hy with hy | hy
          · subst hy
            exact hbltx
          rcases List.mem_cons.mp hy with hy | hy
          · subst hy
            exact lt_of_le_of_lt hrle hbltx
          · exact hfirst y (List.mem_cons_of_mem b hy)

/-- C1: best-record selection returns the record with maximum fitness; for
any table with a unique maximum-fitness row it returns exactly that row, and
when several records share the maximum fitness exactly it returns the first
such record in original table order. -/
theorem adam_first_argmax (T : List SimulationRecord) (hT : T ≠ []) :
    (∀ z ∈ T, (∀ y ∈ T, y ≠ z → y.fitness < z.fitness) → adam T = some z) ∧
    (∃ l₁ x l₂, T = l₁ ++ x :: l₂ ∧ adam T = some x ∧
      (∀ y ∈ T, y.fitness ≤ x.fitness) ∧ ∀ y ∈ l₁, y.fitness < x.fitness) := by
  match T, hT with
  | r :: rs, _ =>
    obtain ⟨l₁, x, l₂, hdec, hval, hmax, hfirst⟩ := idxmaxGo_decomp rs r
    have hadam : adam (r :: rs) = some x := congrArg some hval
    have hxmem : x ∈ r :: rs := by
      have hx : x ∈ l₁ ++ x :: l₂ := List.mem_append_right l₁ (List.mem_cons_self x l₂)
      rw [← hdec] at hx
      exact hx
    constructor
    · intro z hz huniq
      rcases eq_or_ne x z with hxz | hxz
      · rw [hadam, hxz]
      · exact absurd (hmax z hz) (not_le_of_lt (huniq x hxmem hxz))
    · exact ⟨l₁, x, l₂, hdec, hadam, hmax, hfirst⟩

/-- Witness for C1 on the concrete table [recA, recC], whose unique maximum
is recC. -/
theorem adam_first_argmax_witness :
    (∀ z ∈ [recA, recC],
       (∀ y ∈ [recA, recC], y ≠ z → y.fitness < z.fitness) →
       adam [recA, recC] = some z) ∧
    (∃ l₁ x l₂, [recA, recC] = l₁ ++ x :: l₂ ∧ adam [recA, recC] = some x ∧
      (∀ y ∈ [recA, recC], y.fitness ≤ x.fitness) ∧ ∀ y ∈ l₁, y.fitness < x.fitness) :=
  adam_first_argmax [recA, recC] (by simp)

/-- C2: the reconstructed genome fills every non-quark field with the fixed
default constant, whatever the input record; in particular G is the literal
6.67430e-11 (find_adam.py lines 33 to 41). -/
theorem adam_genome_defaults (r : SimulationRecord) :
    (adam_genome r).G = 6.67430e-11 ∧
    (adam_genome r).e = 1.60217663e-19 ∧
    (adam_genome r).alpha_s = 1.0 ∧
    (adam_genome r).alpha_w = 1.0e-6 ∧
    (adam_genome r).mass_electron = 9.10938356e-31 ∧
    (adam_genome r).mass_muon = 1.883531594e-28 ∧
    (adam_genome r).mass_tauon = 3.16754e-27 :=
  ⟨rfl, rfl, rfl, rfl, rfl, rfl, rfl⟩

/-- C3: the reconstructed genome copies the six quark-mass fields of the
selected record exactly (find_adam.py lines 44 to 49). -/
theorem adam_genome_quark_copy (r : SimulationRecord) :
    (adam_genome r).mass_up_quark = r.mass_up_quark ∧
    (adam_genome r).mass_down_quark = r.mass_down_quark ∧
    (adam_genome r).mass_strange_quark = r.mass_strange_quark ∧
    (adam_genome r).mass_charm_quark = r.mass_charm_quark ∧
    (adam_genome r).mass_bottom_quark = r.mass_bottom_quark ∧
    (adam_genome r).mass_top_quark = r.mass_top_quark :=
  ⟨rfl, rfl, rfl, rfl, rfl, rfl⟩

/-- C5: the generation filter is idempotent: filtering an already-filtered
table on the same target returns the same table. -/
theorem winningGenFilter_idempotent (T : List SimulationRecord) (g : ℤ) :
    winningGenFilter (winningGenFilter T g) g = winningGenFilter T g := by
  apply List.filter_eq_self.mpr
  intro a ha
  exact (List.mem_filter.mp ha).2

/-- C4, corrected: the elite subset has length min 500 and table size and is
sorted by weakly descending fitness (exact fitness ties make strict descent
unattainable, see the counterexample). -/
theorem df_elite_length_sorted (T : List SimulationRecord) (hT : T ≠ []) :
    (df_elite T).length = min 500 T.length ∧ (df_elite T).Sorted fitnessGe := by
  constructor
  · rw [df_elite, List.length_take, sort_values_fitness_desc, List.length_insertionSort]
  · exact List.Pairwise.sublist (List.take_sublist 500 _) (List.sorted_insertionSort fitnessGe T)

/-- Witness for C4 on the concrete two-row table [recC, recA]. -/
theorem df_elite_length_sorted_witness :
    (df_elite [recC, recA]).length = min 500 [recC, recA].length ∧
    (df_elite [recC, recA]).Sorted fitnessGe :=
  df_elite_length_sorted [recC, recA] (by simp)

/-- Counterexample to C4 as stated: on the table [recA, recB], whose two rows
share fitness 5 exactly, the elite subset is not sorted strictly descending
by fitness, so the claimed conjunction fails. -/
theorem df_elite_not_strictly_descending :
    ¬ ((df_elite [recA, recB]).length = min 500 [recA, recB].length ∧
       (df_elite [recA, recB]).Sorted fitnessGt) := by
  decide

/-- Helper: an empty generation-filter result sends the landscape pipeline
into the EmptyResult error naming target generation 1. -/
theorem plot_landscape_pipeline_empty (df : List SimulationRecord)
    (h : df_gen1 df = []) :
    plot_landscape_pipeline (some df) = Except.error (PipelineError.emptyResult 1) := by
  rw [plot_landscape_pipeline]
  simp [h]

/-- C6: when the generation filter produces zero rows the pipeline stops with
EmptyResult carrying the target generation, before any best-record or elite
selection, and the run prints the diagnostic naming Generation 1 and produces
no chart. -/
theorem empty_filter_stops_pipeline (df : List SimulationRecord)
    (h : df_gen1 df = []) :
    plot_landscape_pipeline (some df) = Except.error (PipelineError.emptyResult 1) ∧
    plot_landscape_run (some df) =
      ⟨0, ["No viable universes found for Generation 1 in the data."], none⟩ := by
  have hpl := plot_landscape_pipeline_empty df h
  refine ⟨hpl, ?_⟩
  rw [plot_landscape_run, hpl]
  rfl

/-- Witness for C6 on the one-row table whose only record carries
winning_gen 2. -/
theorem empty_filter_stops_pipeline_witness :
    plot_landscape_pipeline (some [recGen2]) = Except.error (PipelineError.emptyResult 1) ∧
    plot_landscape_run (some [recGen2]) =
      ⟨0, ["No viable universes found for Generation 1 in the data."], none⟩ :=
  empty_filter_stops_pipeline [recGen2] (by decide)

/-- Counterexample to C7 as stated: read_csv as called by find_adam.py
performs no column validation and no numeric parsing check, so it accepts a
table whose fitness column holds the text abc and a table with no fitness
column at all, raising neither ParseError nor SchemaMismatch. -/
theorem ingestion_no_validation :
    hasNonNumeric textFitnessTable = true ∧
    read_csv "landscape_data.csv" (some textFitnessTable) = Except.ok textFitnessTable ∧
    textFitnessTable.header.contains "fitness" = true ∧
    missingFitnessTable.header.contains "fitness" = false ∧
    read_csv "landscape_data.csv" (some missingFitnessTable) = Except.ok missingFitnessTable :=
  ⟨rfl, rfl, rfl, rfl, rfl⟩

/-- C7, corrected: ingestion itself validates nothing. A missing required
column surfaces only at the first column access, as an uncaught KeyError
naming the column; non-numeric data is loaded silently by find_adam.py,
while the scripts that pass dtype float64 fail at read time with an uncaught
ValueError naming the offending value. -/
theorem ingestion_amended (t : RawTable) (p c s : String)
    (hc : c ∉ t.header) (hs : firstTextCell t = some s) :
    read_csv p (some t) = Except.ok t ∧
    getColumn t c = Except.error c ∧
    read_csv_float64 p (some t) = Except.error (IngestError.parseError s) := by
  have hidx : t.header.findIdx? (fun h => h == c) = none := by
    rw [List.findIdx?_eq_none_iff]
    intro x hx
    exact beq_eq_false_iff_ne.mpr (fun hxc => hc (hxc ▸ hx))
  refine ⟨rfl, ?_, ?_⟩
  · rw [getColumn, hidx]
  · rw [read_csv_float64]
    simp [hs]

/-- Witness for C7 on the concrete table with no fitness column and a
non-numeric cell. -/
theorem ingestion_amended_witness :
    read_csv "landscape_data.csv" (some noSchemaTable) = Except.ok noSchemaTable ∧
    getColumn noSchemaTable "fitness" = Except.error "fitness" ∧
    read_csv_float64 "landscape_data.csv" (some noSchemaTable) =
      Except.error (IngestError.parseError "abc") :=
  ingestion_amended noSchemaTable "landscape_data.csv" "fitness" "abc" (by decide) (by decide)

/-- Counterexample to C8 as stated: on a missing input file, and on an empty
filter result, both scripts call the builtin function named exit with no
argument, so the process terminates with status 0, not with nonzero
status. -/
theorem fatal_error_exit_status_zero :
    (find_adam_run "landscape_data.csv" none).exitCode = 0 ∧
    (plot_landscape_run none).exitCode = 0 ∧
    (plot_landscape_run (some [recGen2])).exitCode = 0 := by
  decide

/-- C8, corrected: on every fatal error of these two scripts (missing input
file or empty filter result) the process prints a specific diagnostic, the
missing-file one naming the resolved path, terminates with status zero, and
produces no chart and no genome artifact. -/
theorem fatal_error_behaviour (p : String) (df : List SimulationRecord)
    (h : df_gen1 df = []) :
    find_adam_run p none =
      ⟨0, ["Error: No se pudo encontrar \x27" ++ p ++ "\x27.",
           "Asegúrate de haber ejecutado el modo \x27map\x27 primero."], none⟩ ∧
    plot_landscape_run none =
      ⟨0, ["Error: \x27landscape_data.csv\x27 not found. Run the Rust simulation first."],
       none⟩ ∧
    plot_landscape_run (some df) =
      ⟨0, ["No viable universes found for Generation 1 in the data."], none⟩ := by
  refine ⟨rfl, rfl, ?_⟩
  rw [plot_landscape_run, plot_landscape_pipeline_empty df h]
  rfl

/-- Witness for C8 at a concrete path and the concrete table whose filter
result is empty. -/
theorem fatal_error_behaviour_witness :
    find_adam_run "/repo/landscape_data.csv" none =
      ⟨0, ["Error: No se pudo encontrar \x27/repo/landscape_data.csv\x27.",
           "Asegúrate de haber ejecutado el modo \x27map\x27 primero."], none⟩ ∧
    plot_landscape_run none =
      ⟨0, ["Error: \x27landscape_data.csv\x27 not found. Run the Rust simulation first."],
       none⟩ ∧
    plot_landscape_run (some [recGen2]) =
      ⟨0, ["No viable universes found for Generation 1 in the data."], none⟩ :=
  fatal_error_behaviour "/repo/landscape_data.csv" [recGen2] (by decide)

/-- Counterexample to C9 as stated: the landscape and evolution plotting
scripts pass a bare file name to read_csv, so the resolved path follows the
working directory of the caller: two invocation directories yield two
different resolved paths. -/
theorem cwd_dependent_paths :
    plot_landscape_csv_path ["home", "alice"] ≠ plot_landscape_csv_path ["home", "bob"] ∧
    plotter_csv_path ["repo"] ≠ plotter_csv_path ["repo", "scripts"] := by
  decide

/-- C9, corrected: only find_adam.py resolves its input path relative to the
script file itself — any two invocations addressing the same script file
resolve the same CSV path — while the other analysis scripts resolve the
bare file name against the working directory of the caller, which varies
with the invocation directory. -/
theorem find_adam_script_relative (cwd₁ f₁ cwd₂ f₂ : List String)
    (h : abspath cwd₁ f₁ = abspath cwd₂ f₂) :
    find_adam_csv_path cwd₁ f₁ = find_adam_csv_path cwd₂ f₂ ∧
    (∃ c₁ c₂, plot_landscape_csv_path c₁ ≠ plot_landscape_csv_path c₂) ∧
    (∃ c₁ c₂, plotter_csv_path c₁ ≠ plotter_csv_path c₂) := by
  refine ⟨?_, ⟨["a"], ["b"], by decide⟩, ⟨["a"], ["b"], by decide⟩⟩
  rw [find_adam_csv_path, find_adam_csv_path, h]

/-- Witness for C9: two invocations of find_adam.py, from the repository
root and from the scripts directory, resolve the same CSV path. -/
theorem find_adam_script_relative_witness :
    find_adam_csv_path ["repo"] ["scripts", "find_adam.py"] =
      find_adam_csv_path ["repo", "scripts"] ["find_adam.py"] ∧
    (∃ c₁ c₂, plot_landscape_csv_path c₁ ≠ plot_landscape_csv_path c₂) ∧
    (∃ c₁ c₂, plotter_csv_path c₁ ≠ plotter_csv_path c₂) :=
  find_adam_script_relative ["repo"] ["scripts", "find_adam.py"]
    ["repo", "scripts"] ["find_adam.py"] rfl

/-- C10: on every nonempty table the head of the descending-sorted elite
subset exists and its fitness equals the maximum fitness over the whole
table, agreeing with the fitness of the record chosen by direct argmax
selection. -/
theorem best_universe_agrees_with_adam (T : List SimulationRecord) (hT : T ≠ []) :
    ∃ b a, best_universe T = some b ∧ adam T = some a ∧ b.fitness = a.fitness ∧
      ∀ y ∈ T, y.fitness ≤ b.fitness := by
  obtain ⟨r, rs, rfl⟩ := List.exists_cons_of_ne_nil hT
  obtain ⟨l₁, x, l₂, hdec, hval, hmaxx, -⟩ := idxmaxGo_decomp rs r
  have hadam : adam (r :: rs) = some x := congrArg some hval
  have hlen : (sort_values_fitness_desc (r :: rs)).length = (r :: rs).length :=
    List.length_insertionSort fitnessGe (r :: rs)
  have hne : sort_values_fitness_desc (r :: rs) ≠ [] := by
    intro h0
    have h1 := congrArg List.length h0
    rw [hlen] at h1
    simp at h1
  obtain ⟨b, tl, hbtl⟩ := List.exists_cons_of_ne_nil hne
  have hbu : best_universe (r :: rs) = some b := by
    rw [best_universe, df_elite, hbtl]
    rfl
  have hs : List.Sorted fitnessGe (b :: tl) := by
    rw [← hbtl]
    exact List.sorted_insertionSort fitnessGe (r :: rs)
  have hmaxb : ∀ y ∈ r :: rs, y.fitness ≤ b.fitness := by
    intro y hy
    have hy' : y ∈ b :: tl := by
      rw [← hbtl, sort_values_fitness_desc]
      exact (List.mem_insertionSort fitnessGe).mpr hy
    rcases List.mem_cons.mp hy' with hy' | hy'
    · rw [hy']
    · exact List.rel_of_sorted_cons hs y hy'
  have hxmem : x ∈ r :: rs := by
    have hx : x ∈ l₁ ++ x :: l₂ := List.mem_append_right l₁ (List.mem_cons_self x l₂)
    rw [← hdec] at hx
    exact hx
  have hbmem : b ∈ r :: rs := by
    have hb : b ∈ b :: tl := List.mem_cons_self b tl
    rw [← hbtl, sort_values_fitness_desc] at hb
    exact (List.mem_insertionSort fitnessGe).mp hb
  exact ⟨b, x, hbu, hadam, le_antisymm (hmaxx b hbmem) (hmaxb x hxmem), hmaxb⟩

/-- Witness for C10 on the concrete table [recA, recC]. -/
theorem best_universe_agrees_with_adam_witness :
    ∃ b a, best_universe [recA, recC] = some b ∧ adam [recA, recC] = some a ∧
      b.fitness = a.fitness ∧ ∀ y ∈ [recA, recC], y.fitness ≤ b.fitness :=
  best_universe_agrees_with_adam [recA, recC] (by simp)
